import Mathlib

/-!
Verification of the HTTP routing and static-asset fallback contract of the
`worker-fullstack` backend (`src/server/index.ts`).

The backend builds a Hono application:

  app.get('/api/health', (c) => c.json({ status: 'ok', message: 'Server is running' }))
  app.get('/api/hello',  (c) => c.json({ message: 'Hello from Hono!' }))
  app.get('*', serveStatic({ root: './' }))

We embed the route table as an ordered list of routes, dispatch as first-match
lookup over that list (Hono matches the registered routes in order, specific
routes before the wildcard, and falls back to its default `404 Not Found`
response when no route matches; a HEAD request is re-dispatched as GET with
the response body stripped, per hono-base), and the JSON response helper
`c.json` as a pure function from a field list to a response.
-/

namespace WorkerFullstack

/-- An inbound HTTP request: method, path and headers.  The in-scope handlers
never read the headers, but we carry them so that "regardless of headers"
claims quantify over them. -/
structure Request where
  method : String
  path : String
  headers : List (String × String)
deriving Repr, DecidableEq

/-- An HTTP response: status code, content-type header value, and body.
Bodies are byte strings; we represent them as Lean strings. -/
structure Response where
  status : Nat
  contentType : String
  body : String
deriving Repr, DecidableEq

/-- A pre-built static asset: its bytes and its content-type. -/
structure Asset where
  bytes : String
  contentType : String
deriving Repr, DecidableEq

/-- The static asset provider: a lookup from request path to an asset, or
`none` when the path resolves to no asset. -/
def AssetSet : Type := String → Option Asset

/-- Serialization of a flat JSON object with string-valued fields, in field
order, as performed by the framework when the handlers pass object literals
to `c.json`. -/
def jsonObjStr (fields : List (String × String)) : String :=
  "\x7b" ++ String.intercalate ","
    (fields.map (fun p => "\"" ++ p.1 ++ "\":\"" ++ p.2 ++ "\"")) ++ "\x7d"

/-- Hono's `c.json(obj)`: serialize the object, status 200, JSON content-type. -/
def c_json (fields : List (String × String)) : Response :=
  { status := 200, contentType := "application/json", body := jsonObjStr fields }

/-- Hono's default not-found response, produced when no registered route
matches the request (and, via `next()`, when the static middleware finds no
asset and no later route exists). -/
def notFoundResponse : Response :=
  { status := 404, contentType := "text/plain", body := "404 Not Found" }

/-- A handler takes the asset set (used only by the static handler) and the
request, and produces a response. -/
def Handler : Type := AssetSet → Request → Response

/-- A registered route: the HTTP method it was registered for, its path
pattern (the source uses only literal paths and the wildcard `*`), and its
handler.  `app.get(p, h)` registers `(method := "GET", pattern := p, h)`. -/
structure Route where
  method : String
  pattern : String
  handler : Handler

/-- Does a route's pattern match a request path?  The source registers only
literal patterns and the catch-all `*`, which matches every path. -/
def patternMatches (pat : String) (path : String) : Bool :=
  pat == "*" || pat == path

/-- Does a route match a request?  The method must be the registered one and
the pattern must match the path. -/
def routeMatches (r : Route) (req : Request) : Bool :=
  r.method == req.method && patternMatches r.pattern req.path

/-- First-match lookup over the ordered route table; Hono answers with its
default 404 response when no route matches. -/
def dispatchRoutes (routes : List Route) (assets : AssetSet) (req : Request) : Response :=
  match routes with
  | [] => notFoundResponse
  | r :: rest =>
    if routeMatches r req then r.handler assets req else dispatchRoutes rest assets req

/-- Removing a response body while keeping status and headers, as Hono does
when it builds `new Response(null, res)` for a HEAD request. -/
def stripBody (resp : Response) : Response :=
  { resp with body := "" }

/-- Hono's full dispatch: a HEAD request is re-dispatched as GET and the
resulting response is returned with its body stripped (hono-base special-
cases the HEAD method before consulting the router); every other request is
matched against the route table directly. -/
def dispatch (routes : List Route) (assets : AssetSet) (req : Request) : Response :=
  if req.method == "HEAD" then
    stripBody (dispatchRoutes routes assets { req with method := "GET" })
  else
    dispatchRoutes routes assets req

/-- Handler of `app.get('/api/health', ...)`: `c.json({ status: 'ok',
message: 'Server is running' })`. -/
def healthHandler : Handler :=
  fun _ _ => c_json [("status", "ok"), ("message", "Server is running")]

/-- Handler of `app.get('/api/hello', ...)`: `c.json({ message: 'Hello from
Hono!' })`. -/
def helloHandler : Handler :=
  fun _ _ => c_json [("message", "Hello from Hono!")]

/-- Modelled from the spec: `serveStatic({ root: './' })` comes from
`hono/cloudflare-workers` and its implementation is not part of this
repository.  The spec's collaborator interface (§6) reads "given a request
path, return asset bytes + content-type, or indicate absence", served with
HTTP 200 when found; absence falls through to the 404 outcome (§7,
AssetNotFound). -/
def serveStatic (assets : AssetSet) (req : Request) : Response :=
  match assets req.path with
  | some a => { status := 200, contentType := a.contentType, body := a.bytes }
  | none => notFoundResponse

/-- The application's route table, in registration order, mirroring
`src/server/index.ts`. -/
def app : List Route :=
  [ { method := "GET", pattern := "/api/health", handler := healthHandler },
    { method := "GET", pattern := "/api/hello", handler := helloHandler },
    { method := "GET", pattern := "*", handler := serveStatic } ]

/-- The exact health payload `{"status":"ok","message":"Server is running"}`. -/
def healthBody : String :=
  jsonObjStr [("status", "ok"), ("message", "Server is running")]

/-- The exact hello payload `{"message":"Hello from Hono!"}`. -/
def helloBody : String :=
  jsonObjStr [("message", "Hello from Hono!")]

/-- The full response of the health route. -/
def healthResponse : Response :=
  { status := 200, contentType := "application/json", body := healthBody }

/-- The full response of the hello route. -/
def helloResponse : Response :=
  { status := 200, contentType := "application/json", body := helloBody }

/-- The asset provider of the deployed site is arbitrary; the empty one is a
convenient concrete instance. -/
def emptyAssets : AssetSet := fun _ => none

/-- Does a path lie inside the `/api/*` namespace, i.e. start with `/api/`?
Stated over the character list so that it evaluates by computation. -/
def insideApi (p : String) : Bool :=
  List.isPrefixOf "/api/".toList p.toList

/-- A sample asset, used as a concrete instance of the provider. -/
def indexAsset : Asset := { bytes := "<html>index</html>", contentType := "text/html" }

/-- A concrete asset provider holding a single file at `/index.html`. -/
def sampleAssets : AssetSet :=
  fun p => if p = "/index.html" then some indexAsset else none

/-- The module-level state of the server: the one shared router value built at
module load (`const app = new Hono()` followed by the three registrations).
It is the only module-scope binding in `src/server/index.ts`, hence the only
state visible across requests. -/
structure ServerState where
  routes : List Route

/-- Handling one request against the current module state.  Each source
handler body is a single `return c.json(...)` (or the static lookup) with no
assignment to any module-scope binding, so handling reads the state and
returns it unchanged alongside the response. -/
def handleOne (assets : AssetSet) (s : ServerState) (req : Request) :
    Response × ServerState :=
  (dispatch s.routes assets req, s)

/-- Handling a sequence of requests, threading the module state through. -/
def runRequests (assets : AssetSet) (s : ServerState) :
    List Request → List Response × ServerState
  | [] => ([], s)
  | req :: rest =>
    let first := handleOne assets s req
    let rest' := runRequests assets first.2 rest
    (first.1 :: rest'.1, rest'.2)

/-- Helper: a GET request whose path matches neither literal API route falls
through the first two routes and is handled by the catch-all static route. -/
theorem dispatch_get_fallthrough (assets : AssetSet) (p : String)
    (hs : List (String × String)) (h1 : p ≠ "/api/health") (h2 : p ≠ "/api/hello") :
    dispatch app assets { method := "GET", path := p, headers := hs } =
      serveStatic assets { method := "GET", path := p, headers := hs } := by
  have e1 : (("/api/health" : String) == p) = false := by
    simp only [beq_eq_false_iff_ne]
    exact fun e => h1 e.symm
  have e2 : (("/api/hello" : String) == p) = false := by
    simp only [beq_eq_false_iff_ne]
    exact fun e => h2 e.symm
  show dispatchRoutes app assets { method := "GET", path := p, headers := hs } = _
  simp [dispatchRoutes, app, routeMatches, patternMatches, e1, e2]

/-- C1: for every incoming request with method GET and path `/api/health`,
regardless of headers and of the asset set, the router returns status 200,
content-type `application/json`, and the JSON body
`\x7b"status":"ok","message":"Server is running"\x7d`. -/
theorem health_route_ok (assets : AssetSet) (hs : List (String × String)) :
    dispatch app assets { method := "GET", path := "/api/health", headers := hs } =
      { status := 200, contentType := "application/json",
        body := "\x7b\"status\":\"ok\",\"message\":\"Server is running\"\x7d" } := rfl

/-- C2: for every incoming request with method GET and path `/api/hello`,
regardless of headers and of the asset set, the router returns status 200,
content-type `application/json`, and the JSON body
`\x7b"message":"Hello from Hono!"\x7d`. -/
theorem hello_route_ok (assets : AssetSet) (hs : List (String × String)) :
    dispatch app assets { method := "GET", path := "/api/hello", headers := hs } =
      { status := 200, contentType := "application/json",
        body := "\x7b\"message\":\"Hello from Hono!\"\x7d" } := rfl

/-- C3 counterexample: the claim says a request of ANY method off the two API
routes is dispatched to static asset resolution, but the catch-all is
registered with `app.get`, so a POST to `/index.html` — a path present in the
asset set — gets Hono's default 404, not the asset's bytes with 200. -/
theorem static_fallback_not_all_methods :
    sampleAssets "/index.html" = some indexAsset ∧
    dispatch app sampleAssets { method := "POST", path := "/index.html", headers := [] } =
      notFoundResponse ∧
    notFoundResponse ≠
      { status := 200, contentType := indexAsset.contentType, body := indexAsset.bytes } :=
  ⟨rfl, rfl, by decide⟩

/-- C3 (amended): for every GET request whose (method, path) pair is not
GET `/api/health` and not GET `/api/hello`, the router dispatches to static
asset resolution: an asset found at the path is returned with status 200,
otherwise the provider's fallback (404) results. -/
theorem static_fallback_get (assets : AssetSet) (p : String)
    (hs : List (String × String)) (h1 : p ≠ "/api/health") (h2 : p ≠ "/api/hello") :
    dispatch app assets { method := "GET", path := p, headers := hs } =
      serveStatic assets { method := "GET", path := p, headers := hs } :=
  dispatch_get_fallthrough assets p hs h1 h2

/-- C3 witness: the amended theorem at the concrete path `/foo`. -/
theorem static_fallback_get_witness :
    dispatch app emptyAssets { method := "GET", path := "/foo", headers := [] } =
      serveStatic emptyAssets { method := "GET", path := "/foo", headers := [] } :=
  static_fallback_get emptyAssets "/foo" [] (by decide) (by decide)

/-- C4 counterexample: `POST /api/hello` does NOT produce the same response
as `GET /api/hello` — `app.get` is a method guard, so the POST matches no
route and yields Hono's default 404 instead of the hello payload. -/
theorem post_hello_differs_from_get :
    dispatch app emptyAssets { method := "POST", path := "/api/hello", headers := [] } =
      notFoundResponse ∧
    dispatch app emptyAssets { method := "GET", path := "/api/hello", headers := [] } =
      helloResponse ∧
    notFoundResponse ≠ helloResponse :=
  ⟨rfl, rfl, by decide⟩

/-- C4 (amended): a request with method POST and path `/api/hello` matches no
registered route (all three registrations are GET-only), so the router
returns the framework's default 404 response, for every asset set and
header list. -/
theorem post_hello_is_404 (assets : AssetSet) (hs : List (String × String)) :
    dispatch app assets { method := "POST", path := "/api/hello", headers := hs } =
      notFoundResponse := rfl

/-- C5: the two fixed API routes are checked before the catch-all static
fallback: for EVERY asset set — including one with an asset stored at
`/api/health` or `/api/hello` — a GET to those paths returns the fixed API
payload, identical to the response under the empty asset set, so static
asset bytes are never consulted. -/
theorem api_routes_shadow_static (assets : AssetSet) (hs : List (String × String)) :
    dispatch app assets { method := "GET", path := "/api/health", headers := hs } =
      healthResponse ∧
    dispatch app assets { method := "GET", path := "/api/hello", headers := hs } =
      helloResponse ∧
    dispatch app assets { method := "GET", path := "/api/health", headers := hs } =
      dispatch app emptyAssets { method := "GET", path := "/api/health", headers := hs } ∧
    dispatch app assets { method := "GET", path := "/api/hello", headers := hs } =
      dispatch app emptyAssets { method := "GET", path := "/api/hello", headers := hs } :=
  ⟨rfl, rfl, rfl, rfl⟩

/-- C6: for every GET request to a path outside `/api/*` that resolves to a
known static asset, the router returns exactly that asset's bytes with the
asset's content-type and status 200. -/
theorem static_asset_served (assets : AssetSet) (p : String)
    (hs : List (String × String)) (a : Asset)
    (hp : insideApi p = false) (ha : assets p = some a) :
    dispatch app assets { method := "GET", path := p, headers := hs } =
      { status := 200, contentType := a.contentType, body := a.bytes } := by
  have h1 : p ≠ "/api/health" := by
    rintro rfl
    exact absurd hp (by decide)
  have h2 : p ≠ "/api/hello" := by
    rintro rfl
    exact absurd hp (by decide)
  rw [dispatch_get_fallthrough assets p hs h1 h2]
  simp [serveStatic, ha]

/-- C6 witness: the theorem at the concrete provider `sampleAssets` and path
`/index.html`. -/
theorem static_asset_served_witness :
    dispatch app sampleAssets { method := "GET", path := "/index.html", headers := [] } =
      { status := 200, contentType := indexAsset.contentType, body := indexAsset.bytes } :=
  static_asset_served sampleAssets "/index.html" [] indexAsset (by decide) rfl

/-- C7: a GET to `/api/unknown` — matching neither fixed API route — with no
asset stored at that path returns the 404 fallback, whose body is neither the
health payload nor the hello payload. -/
theorem api_unknown_not_api_payload (assets : AssetSet)
    (hs : List (String × String)) (h : assets "/api/unknown" = none) :
    dispatch app assets { method := "GET", path := "/api/unknown", headers := hs } =
      notFoundResponse ∧
    notFoundResponse.body ≠ healthBody ∧
    notFoundResponse.body ≠ helloBody := by
  refine ⟨?_, by decide, by decide⟩
  rw [dispatch_get_fallthrough assets "/api/unknown" hs (by decide) (by decide)]
  simp [serveStatic, h]

/-- C7 witness: the theorem at the empty asset provider. -/
theorem api_unknown_not_api_payload_witness :
    dispatch app emptyAssets { method := "GET", path := "/api/unknown", headers := [] } =
      notFoundResponse ∧
    notFoundResponse.body ≠ healthBody ∧
    notFoundResponse.body ≠ helloBody :=
  api_unknown_not_api_payload emptyAssets [] rfl

/-- C8: the API endpoints are deterministic and idempotent: any two GET
requests to `/api/health` (respectively `/api/hello`), whatever their headers
and whatever the asset set at the time of each call, receive byte-identical
JSON bodies, equal to the fixed payload. -/
theorem api_idempotent (a1 a2 : AssetSet) (h1 h2 : List (String × String)) :
    (dispatch app a1 { method := "GET", path := "/api/health", headers := h1 }).body =
      (dispatch app a2 { method := "GET", path := "/api/health", headers := h2 }).body ∧
    (dispatch app a1 { method := "GET", path := "/api/health", headers := h1 }).body =
      healthBody ∧
    (dispatch app a1 { method := "GET", path := "/api/hello", headers := h1 }).body =
      (dispatch app a2 { method := "GET", path := "/api/hello", headers := h2 }).body ∧
    (dispatch app a1 { method := "GET", path := "/api/hello", headers := h1 }).body =
      helloBody :=
  ⟨rfl, rfl, rfl, rfl⟩

/-- C9: handling requests has no side effect beyond the responses: running
any sequence of requests leaves the module-level state exactly as it started,
and every response is the pure dispatch of its own request against the
initial state — no request's processing changes what any other request
observes. -/
theorem no_side_effects (assets : AssetSet) (s : ServerState) (reqs : List Request) :
    (runRequests assets s reqs).2 = s ∧
    (runRequests assets s reqs).1 = reqs.map (fun r => dispatch s.routes assets r) := by
  induction reqs with
  | nil => exact ⟨rfl, rfl⟩
  | cons req rest ih =>
    simp [runRequests, handleOne, ih.1, ih.2]

/-- C10 counterexample: the claim is false for the non-GET method HEAD —
Hono re-dispatches HEAD as GET with the body stripped, so `HEAD /api/health`
returns status 200 (not the default 404) and `HEAD /index.html` does invoke
the static asset provider (the response carries the asset's content-type and
changes when the asset set changes). -/
theorem head_reaches_routes :
    dispatch app sampleAssets { method := "HEAD", path := "/api/health", headers := [] } =
      { status := 200, contentType := "application/json", body := "" } ∧
    dispatch app sampleAssets { method := "HEAD", path := "/index.html", headers := [] } =
      { status := 200, contentType := "text/html", body := "" } ∧
    dispatch app sampleAssets { method := "HEAD", path := "/index.html", headers := [] } ≠
      dispatch app emptyAssets { method := "HEAD", path := "/index.html", headers := [] } ∧
    ({ status := 200, contentType := "application/json", body := "" } : Response) ≠
      notFoundResponse :=
  ⟨rfl, rfl, by decide, by decide⟩

/-- C10 (amended): the catch-all static route is registered only for GET, and
Hono additionally serves HEAD by re-dispatching it as GET with the body
stripped; so for every request whose method is neither GET nor HEAD, to any
path, no route matches: the router returns the framework's default 404 and
the response does not depend on the asset provider, which is therefore never
consulted. -/
theorem non_get_non_head_is_404 (assets otherAssets : AssetSet) (m p : String)
    (hs : List (String × String)) (hm : m ≠ "GET") (hh : m ≠ "HEAD") :
    dispatch app assets { method := m, path := p, headers := hs } = notFoundResponse ∧
    dispatch app assets { method := m, path := p, headers := hs } =
      dispatch app otherAssets { method := m, path := p, headers := hs } := by
  have eh : (m == "HEAD") = false := by
    simp only [beq_eq_false_iff_ne]
    exact hh
  have e : (("GET" : String) == m) = false := by
    simp only [beq_eq_false_iff_ne]
    exact fun e => hm e.symm
  constructor <;> simp [dispatch, dispatchRoutes, app, routeMatches, eh, e]

/-- C10 witness: the amended theorem at method POST, path `/`, with two
different asset providers. -/
theorem non_get_non_head_is_404_witness :
    dispatch app emptyAssets { method := "POST", path := "/", headers := [] } =
      notFoundResponse ∧
    dispatch app emptyAssets { method := "POST", path := "/", headers := [] } =
      dispatch app sampleAssets { method := "POST", path := "/", headers := [] } :=
  non_get_non_head_is_404 emptyAssets sampleAssets "POST" "/" [] (by decide) (by decide)

end WorkerFullstack
